import Mathlib

/-!
Shallow embedding of the MirrorWorld photo-to-3D-avatar pipeline.

The live pipeline is `main.py` (FastAPI orchestration, job store) together
with `api/processing_simple.py` (`PhotoProcessor`) — `main.py` imports
`PhotoProcessor` from `api.processing_simple`.

Numeric modelling conventions:
* image pixel data, averages, expression intensities: exact rationals (ℚ);
* mesh geometry (which uses `np.sin`, `np.cos`, `np.pi`): real numbers (ℝ)
  with `Real.sin`/`Real.cos`/`Real.pi`, i.e. exact real arithmetic in place
  of IEEE floats;
* external library calls (PIL image operations, PNG serialisation, MD5)
  are modelled as parameters (`PILOps`), since their internals are not part
  of this repository.
-/

namespace MirrorWorld

/-- A 3D point / vector, as used for mesh vertices and normals
(`processing_simple.py` keeps these as `[x, y, z]` float lists). -/
structure Vec3 where
  x : ℝ
  y : ℝ
  z : ℝ

/-- The `facial_geometry` dictionary returned by
`PhotoProcessor._extract_facial_features` (processing_simple.py lines
124-132).  All seven values are hard-coded constants in the source. -/
structure FacialGeometry where
  face_width : ℚ
  face_length : ℚ
  jaw_width : ℚ
  forehead_height : ℚ
  eye_spacing : ℚ
  nose_width : ℚ
  mouth_width : ℚ
deriving DecidableEq

/-- The `expressions` dictionary returned by
`PhotoProcessor._extract_facial_features` (processing_simple.py lines
133-139); all five intensities are hard-coded constants. -/
structure Expressions where
  neutral : ℚ
  happy : ℚ
  sad : ℚ
  angry : ℚ
  surprised : ℚ
deriving DecidableEq

/-- The constant `facial_geometry` values of
`_extract_facial_features`: face_width 2.5, face_length 2.0, jaw_width 2.0,
forehead_height 1.6, eye_spacing 1.2, nose_width 0.8, mouth_width 1.0. -/
def hardcodedGeometry : FacialGeometry :=
  ⟨5/2, 2, 2, 8/5, 6/5, 4/5, 1⟩

/-- The constant `expressions` values of `_extract_facial_features`:
neutral 0.8, happy 0.2, sad 0.0, angry 0.0, surprised 0.0. -/
def hardcodedExpressions : Expressions :=
  ⟨4/5, 1/5, 0, 0, 0⟩

/-- One vertex of the generated face mesh
(`PhotoProcessor._generate_3d_mesh`, processing_simple.py lines 151-165):
for grid indices `i, j ∈ [0, 20)`,
`u = i/19`, `v = j/19`, `theta = u·2π`, `phi = v·π`,
`r = 0.5 + 0.1·sin(3·theta)·sin(2·phi)`, and the coordinates are
`x = r·sin(phi)·cos(theta)·face_width·0.4`,
`y = r·cos(phi)·face_length·0.4`,
`z = r·sin(phi)·sin(theta)·0.3`. -/
noncomputable def meshVertexAt (g : FacialGeometry) (i j : ℕ) : Vec3 :=
  let u : ℝ := (i : ℝ) / 19
  let v : ℝ := (j : ℝ) / 19
  let theta : ℝ := u * 2 * Real.pi
  let phi : ℝ := v * Real.pi
  let r : ℝ := 0.5 + 0.1 * Real.sin (3 * theta) * Real.sin (2 * phi)
  ⟨r * Real.sin phi * Real.cos theta * (g.face_width : ℝ) * 0.4,
   r * Real.cos phi * (g.face_length : ℝ) * 0.4,
   r * Real.sin phi * Real.sin theta * 0.3⟩

/-- The vertex list built by the double loop
`for i in range(20): for j in range(20): vertices.append(...)` of
`_generate_3d_mesh`; vertex `i*20 + j` is `meshVertexAt g i j`. -/
noncomputable def generateVertices (g : FacialGeometry) : List Vec3 :=
  (List.range 20).flatMap fun i => (List.range 20).map fun j => meshVertexAt g i j

/-- The triangular face list built by the double loop
`for i in range(19): for j in range(19)` of `_generate_3d_mesh`
(lines 168-176): with `a = i*20+j`, `b = (i+1)*20+j`, `c = i*20+(j+1)`,
`d = (i+1)*20+(j+1)`, the loop appends `[a, b, c]` and `[b, d, c]`. -/
def generateFaces : List (List ℕ) :=
  (List.range 19).flatMap fun i => (List.range 19).flatMap fun j =>
    [[i * 20 + j, (i + 1) * 20 + j, i * 20 + (j + 1)],
     [(i + 1) * 20 + j, (i + 1) * 20 + (j + 1), i * 20 + (j + 1)]]

/-- Vector subtraction, as in `v2 - v1` on numpy arrays. -/
noncomputable def vsub (a b : Vec3) : Vec3 :=
  ⟨a.x - b.x, a.y - b.y, a.z - b.z⟩

/-- Vector addition, as in `normals[vertex_idx] + normal`. -/
noncomputable def vadd (a b : Vec3) : Vec3 :=
  ⟨a.x + b.x, a.y + b.y, a.z + b.z⟩

/-- `np.cross` of two 3-vectors. -/
noncomputable def cross (a b : Vec3) : Vec3 :=
  ⟨a.y * b.z - a.z * b.y, a.z * b.x - a.x * b.z, a.x * b.y - a.y * b.x⟩

/-- Componentwise division by a scalar, as in `normal / norm`. -/
noncomputable def sdiv (a : Vec3) (s : ℝ) : Vec3 :=
  ⟨a.x / s, a.y / s, a.z / s⟩

/-- Sum of squared components of a vector. -/
noncomputable def normSq (a : Vec3) : ℝ :=
  a.x ^ 2 + a.y ^ 2 + a.z ^ 2

/-- `np.linalg.norm`: the Euclidean magnitude of a 3-vector. -/
noncomputable def vnorm (a : Vec3) : ℝ :=
  Real.sqrt (normSq a)

/-- The zero vector `[0.0, 0.0, 0.0]`. -/
def vzero : Vec3 := ⟨0, 0, 0⟩

/-- The per-face normal computed inside the first loop of
`PhotoProcessor._calculate_surface_normals` (processing_simple.py lines
194-201): `normal = np.cross(v2 - v1, v3 - v1)` scaled by
`1 / (np.linalg.norm(normal) + 1e-8)`.  Out-of-range vertex indices (which
would raise an `IndexError` in Python, and never occur for the meshes the
code builds) read the zero vector. -/
noncomputable def faceNormal (vertices : List Vec3) (face : List ℕ) : Vec3 :=
  let v1 := vertices.getD (face.getD 0 0) vzero
  let v2 := vertices.getD (face.getD 1 0) vzero
  let v3 := vertices.getD (face.getD 2 0) vzero
  let n := cross (vsub v2 v1) (vsub v3 v1)
  sdiv n (vnorm n + 1 / 100000000)

/-- One iteration of the accumulation loop of
`_calculate_surface_normals` (lines 194-204): if the face has at least
three indices, add the face normal into the accumulator of each vertex the
face references. -/
noncomputable def accumFaceNormal (vertices : List Vec3) (normals : List Vec3)
    (face : List ℕ) : List Vec3 :=
  if 3 ≤ face.length then
    let n := faceNormal vertices face
    face.foldl (fun ns idx => ns.set idx (vadd (ns.getD idx vzero) n)) normals
  else
    normals

/-- The final normalisation of one accumulated normal
(`_calculate_surface_normals` lines 207-213): divide by the magnitude when
it exceeds `1e-8`, otherwise fall back to `[0.0, 1.0, 0.0]`. -/
noncomputable def normalizeAccum (n : Vec3) : Vec3 :=
  if vnorm n > 1 / 100000000 then sdiv n (vnorm n) else ⟨0, 1, 0⟩

/-- `PhotoProcessor._calculate_surface_normals` (processing_simple.py lines
190-215): start from one zero accumulator per vertex, accumulate every
face's normal into its vertices, then normalise every accumulator. -/
noncomputable def calculate_surface_normals (vertices : List Vec3)
    (faces : List (List ℕ)) : List Vec3 :=
  ((faces.foldl (accumFaceNormal vertices) (vertices.map fun _ => vzero)).map
    normalizeAccum)

/-- `PhotoProcessor._generate_uv_coordinates` (processing_simple.py lines
217-224): for each vertex, `u = (x + 1.0) * 0.5` and `v = (y + 1.0) * 0.5`. -/
noncomputable def generate_uv_coordinates (vertices : List Vec3) : List (ℝ × ℝ) :=
  vertices.map fun v => ((v.x + 1) * 0.5, (v.y + 1) * 0.5)

/-- The mesh dictionary returned by `PhotoProcessor._generate_3d_mesh`. -/
structure MeshData where
  vertices : List Vec3
  faces : List (List ℕ)
  normals : List Vec3
  uvs : List (ℝ × ℝ)
  vertex_count : ℕ
  face_count : ℕ
  mesh_quality : String

/-- `PhotoProcessor._generate_3d_mesh` (processing_simple.py lines 142-188):
build the 20×20 vertex grid and its triangulation from the facial-geometry
measurements, compute normals and UVs, and tag the mesh quality. -/
noncomputable def generate_3d_mesh (features_geometry : FacialGeometry) : MeshData :=
  let vertices := generateVertices features_geometry
  let faces := generateFaces
  { vertices := vertices
    faces := faces
    normals := calculate_surface_normals vertices faces
    uvs := generate_uv_coordinates vertices
    vertex_count := vertices.length
    face_count := faces.length
    mesh_quality := "photo_based_generation" }

/-- An RGB pixel. -/
abbrev Pixel : Type := ℕ × ℕ × ℕ

/-- External library operations (PIL image handling, PNG serialisation,
`hashlib.md5`) used by `PhotoProcessor`, over an abstract image type.
Their internals live outside this repository, so they are parameters of
the embedding; the pipeline composes them deterministically. -/
structure PILOps (Img : Type) where
  mode : Img → String
  convertRGB : Img → Img
  resize512 : Img → Img
  sharpen : ℚ → Img → Img
  contrast : ℚ → Img → Img
  pngEncode : Img → List ℕ
  md5hex : List ℕ → String
  toPixels : Img → List (List Pixel)

/-- `PhotoProcessor._preprocess_image` (processing_simple.py lines 82-95):
convert to RGB when needed, resize to 512×512, sharpen by factor 1.2,
raise contrast by factor 1.1. -/
def preprocess_image {Img : Type} (ops : PILOps Img) (image : Img) : Img :=
  let image := if ops.mode image ≠ "RGB" then ops.convertRGB image else image
  let image := ops.resize512 image
  let image := ops.sharpen (12/10) image
  ops.contrast (11/10) image

/-- `PhotoProcessor._generate_image_hash` (processing_simple.py lines
97-102): MD5 hex digest of the PNG serialisation of the image. -/
def generate_image_hash {Img : Type} (ops : PILOps Img) (image : Img) : String :=
  ops.md5hex (ops.pngEncode image)

/-- Python slice `a[lo:hi]`. -/
def slice {β : Type} (l : List β) (lo hi : ℕ) : List β :=
  (l.drop lo).take (hi - lo)

/-- The centre crop `img_array[h//4 : 3*h//4, w//4 : 3*w//4]` used as the
face region in `_extract_facial_features` (line 113). -/
def cropCenter (px : List (List Pixel)) : List (List Pixel) :=
  let h := px.length
  let w := (px.headD []).length
  (slice px (h / 4) (3 * h / 4)).map fun row => slice row (w / 4) (3 * w / 4)

/-- Componentwise sum of the pixels of a region. -/
def regionSum (region : List (List Pixel)) : ℕ × ℕ × ℕ :=
  region.foldl
    (fun acc row =>
      row.foldl (fun a p => (a.1 + p.1, a.2.1 + p.2.1, a.2.2 + p.2.2)) acc)
    (0, 0, 0)

/-- Number of pixels in a region. -/
def regionCount (region : List (List Pixel)) : ℕ :=
  (region.map List.length).sum

/-- `np.mean(face_region, axis=(0, 1))`: the per-channel average colour of
a pixel region, as exact rationals. -/
def avgColor (region : List (List Pixel)) : ℚ × ℚ × ℚ :=
  let s := regionSum region
  let n : ℚ := (regionCount region : ℚ)
  ((s.1 : ℚ) / n, (s.2.1 : ℚ) / n, (s.2.2 : ℚ) / n)

/-- The `skin_tone` dictionary of `_extract_facial_features`
(processing_simple.py lines 119-123). -/
structure SkinTone where
  base_color : ℚ × ℚ × ℚ
  undertone : String
  brightness : ℚ
deriving DecidableEq

/-- The feature dictionary returned by
`PhotoProcessor._extract_facial_features` (processing_simple.py lines
104-140). -/
structure FacialFeatures where
  face_detected : Bool
  face_bounds : List ℕ
  skin_tone : SkinTone
  facial_geometry : FacialGeometry
  expressions : Expressions

/-- `PhotoProcessor._extract_facial_features` (processing_simple.py lines
104-140): always reports a detected face; the skin tone is computed from
the centre crop of the image, while `facial_geometry` and `expressions`
are the hard-coded constant dictionaries. -/
def extract_facial_features {Img : Type} (ops : PILOps Img) (image : Img) :
    FacialFeatures :=
  let px := ops.toPixels image
  let h := px.length
  let w := (px.headD []).length
  let avg := avgColor (cropCenter px)
  { face_detected := true
    face_bounds := [w / 4, h / 4, 3 * w / 4, 3 * h / 4]
    skin_tone :=
      { base_color := avg
        undertone := if avg.1 > avg.2.2 then "warm" else "cool"
        brightness := (avg.1 + avg.2.1 + avg.2.2) / 3 }
    facial_geometry := hardcodedGeometry
    expressions := hardcodedExpressions }

/-- The standard base64 alphabet. -/
def base64Chars : List Char :=
  "ABCDEFGHIJKLMNOPQRSTUVWXYZabcdefghijklmnopqrstuvwxyz0123456789+/".toList

/-- The base64 character for a 6-bit value. -/
def b64Char (n : ℕ) : Char :=
  base64Chars.getD n 'A'

/-- `base64.b64encode` over a byte list (standard RFC 4648 encoding with
`=` padding), modelling `base64.b64encode(img_data).decode('utf-8')`. -/
def base64Encode : List ℕ → List Char
  | [] => []
  | [a] => [b64Char (a / 4 % 64), b64Char (a % 4 * 16), '=', '=']
  | [a, b] =>
    [b64Char (a / 4 % 64), b64Char (a % 4 * 16 + b / 16), b64Char (b % 16 * 4), '=']
  | a :: b :: c :: rest =>
    b64Char (a / 4 % 64) :: b64Char (a % 4 * 16 + b / 16) ::
      b64Char (b % 16 * 4 + c / 64) :: b64Char (c % 64) :: base64Encode rest

/-- The texture dictionary returned by `PhotoProcessor._generate_textures`
(channel name → base64-encoded image). -/
structure TextureSet where
  diffuse : List Char
  normal : List Char
  specular : List Char
deriving DecidableEq

/-- `PhotoProcessor._generate_textures` (processing_simple.py lines
226-240): base64-encode the PNG bytes of the processed photo once, and
assign that same string to the `diffuse`, `normal` and `specular`
channels.  The `mesh_data` argument is accepted but unused, exactly as in
the source. -/
def generate_textures {Img : Type} (ops : PILOps Img) (image : Img)
    (mesh_data : MeshData) : TextureSet :=
  let base64_image := base64Encode (ops.pngEncode image)
  { diffuse := base64_image
    normal := base64_image
    specular := base64_image }

/-- The `blend_shapes` dictionary of `_generate_animations` (expression
name → flat delta array). -/
structure BlendShapes where
  neutral : List ℚ
  happy : List ℚ
  sad : List ℚ
  angry : List ℚ
  surprised : List ℚ

/-- One blend-shape array of `_generate_animations` (processing_simple.py
lines 248-254): `[intensity * np.random.uniform(0.95, 1.05) for _ in
range(468)]`, with the 468 random draws supplied by `rand`. -/
def blendShapeFor (intensity : ℚ) (rand : ℕ → ℚ) : List ℚ :=
  (List.range 468).map fun k => intensity * rand k

/-- One animation keyframe (`{"time": ..., "blend_shapes": ...}`). -/
structure Keyframe where
  time : ℚ
  blend_shapes : List ℚ

/-- One animation sequence of `_generate_animations`. -/
structure AnimSeq where
  name : String
  duration : ℚ
  keyframes : List Keyframe

/-- The dictionary returned by `_generate_animations`. -/
structure AnimationData where
  blend_shapes : BlendShapes
  skeleton : Option Unit
  sequences : List AnimSeq

/-- `PhotoProcessor._generate_animations` (processing_simple.py lines
242-272): one 468-entry blend-shape array per expression, no skeleton, and
a single `idle` sequence keyframed over the neutral and happy shapes.
`rand e k` supplies the `np.random.uniform(0.95, 1.05)` draw for element
`k` of expression `e`. -/
def generate_animations (expressions : Expressions) (rand : ℕ → ℕ → ℚ) :
    AnimationData :=
  let bs : BlendShapes :=
    { neutral := blendShapeFor expressions.neutral (rand 0)
      happy := blendShapeFor expressions.happy (rand 1)
      sad := blendShapeFor expressions.sad (rand 2)
      angry := blendShapeFor expressions.angry (rand 3)
      surprised := blendShapeFor expressions.surprised (rand 4) }
  { blend_shapes := bs
    skeleton := none
    sequences :=
      [{ name := "idle"
         duration := 2
         keyframes := [⟨0, bs.neutral⟩, ⟨1, bs.happy⟩, ⟨2, bs.neutral⟩] }] }

/-- One material entry of `_generate_materials`. -/
structure Material where
  albedo : List ℚ
  metallic : ℚ
  roughness : ℚ
  emission : List ℚ
deriving DecidableEq

/-- `PhotoProcessor._generate_materials` (processing_simple.py lines
274-283): a single constant `skin` material. -/
def generate_materials (features : FacialFeatures) : List (String × Material) :=
  [("skin", { albedo := [4/5, 7/10, 3/5, 1], metallic := 0, roughness := 4/5,
              emission := [0, 0, 0] })]

/-- `PhotoProcessor._generate_lighting_params` (processing_simple.py lines
285-292): constant lighting intensities. -/
def generate_lighting_params : List (String × ℚ) :=
  [("ambient_intensity", 3/10), ("directional_intensity", 7/10),
   ("rim_light_intensity", 1/5), ("shadow_strength", 1/2)]

/-- The avatar record dictionary assembled by
`PhotoProcessor.generate_3d_avatar` (processing_simple.py lines 57-74). -/
structure AvatarData where
  id : String
  created_at : String
  vertices : List Vec3
  faces : List (List ℕ)
  textures : TextureSet
  blend_shapes : BlendShapes
  skeleton : Option Unit
  animations : List AnimSeq
  materials : List (String × Material)
  lighting_params : List (String × ℚ)
  source_image_hash : String
  generation_params : List (String × String)

/-- `PhotoProcessor.generate_3d_avatar` (processing_simple.py lines
42-76): preprocess the photo, hash it, extract features, build the mesh,
textures and animations, and assemble the avatar record.  The
nondeterministic externals — `uuid.uuid4()`, `datetime.now()` and the
`np.random.uniform` draws — are supplied as the `avatar_id`,
`current_time` and `rand` parameters. -/
noncomputable def generate_3d_avatar {Img : Type} (ops : PILOps Img)
    (avatar_id current_time : String) (rand : ℕ → ℕ → ℚ) (image : Img) :
    AvatarData :=
  let processed_image := preprocess_image ops image
  let image_hash := generate_image_hash ops processed_image
  let features := extract_facial_features ops processed_image
  let mesh_data := generate_3d_mesh features.facial_geometry
  let textures := generate_textures ops processed_image mesh_data
  let animations := generate_animations features.expressions rand
  { id := avatar_id
    created_at := current_time
    vertices := mesh_data.vertices
    faces := mesh_data.faces
    textures := textures
    blend_shapes := animations.blend_shapes
    skeleton := animations.skeleton
    animations := animations.sequences
    materials := generate_materials features
    lighting_params := generate_lighting_params
    source_image_hash := image_hash
    generation_params :=
      [("quality", "high"), ("style", "photorealistic"),
       ("optimization", "real_time")] }

/-- One entry of the `processing_status` dictionary of `main.py`: status
string, integer progress, message, and the avatar payload (abstract here,
since the HTTP layer never inspects it). -/
structure JobState (α : Type) where
  status : String
  progress : ℕ
  message : String
  avatar_data : Option α

/-- The outcome of `await processor.generate_3d_avatar(image)` as observed
by `process_photo_background`: either an avatar record or a raised
exception carrying a message string. -/
inductive ProcResult (α : Type) where
  | ok (avatar : α)
  | err (msg : String)

/-- Whether `needle` starts `hay` (character list comparison). -/
def leadsWith : List Char → List Char → Bool
  | [], _ => true
  | _ :: _, [] => false
  | a :: as, b :: bs => a == b && leadsWith as bs

/-- Python's `needle in hay` substring test over character lists. -/
def hasSubstr (hay needle : List Char) : Bool :=
  match hay with
  | [] => needle.isEmpty
  | _ :: t => leadsWith needle hay || hasSubstr t needle

/-- The entry written into `processing_status` by `upload_photo`
(main.py lines 75-80). -/
def initialJobState (α : Type) : JobState α :=
  { status := "processing", progress := 0,
    message := "Starting photo analysis...", avatar_data := none }

/-- The message set by `process_photo_background` when the processor
raises an exception containing "No face detected" (main.py line 140). -/
def noFaceMessage : String :=
  "No face detected in the image. Please upload a clear photo showing your face directly facing the camera."

/-- The last `processing_status[process_id].update(...)` performed by
`process_photo_background` (main.py lines 133-159), applied to the state
left by the progress-95 update: on success the job is completed at
progress 100 with the avatar stored; on a "No face detected" exception it
is failed at progress 0 with `noFaceMessage`; on any other exception it is
failed at progress 0 with a `Processing failed:` message. -/
def finalJobState {α : Type} (prev : JobState α) (r : ProcResult α) : JobState α :=
  match r with
  | .ok a =>
    { prev with status := "completed", progress := 100,
                message := "Avatar generation complete!", avatar_data := some a }
  | .err m =>
    if hasSubstr m.toList "No face detected".toList then
      { prev with status := "failed", progress := 0, message := noFaceMessage }
    else
      { prev with status := "failed", progress := 0,
                  message := "Processing failed: " ++ m }

/-- The successive values taken by `processing_status[process_id]` during
one run of `upload_photo` + `process_photo_background` (main.py lines
75-159), parameterised by the processor outcome `r`: the initial entry,
the five stage updates at progress 15/35/60/80/95, and the terminal
update. -/
def processTrace {α : Type} (r : ProcResult α) : List (JobState α) :=
  let s0 : JobState α := initialJobState α
  let s1 := { s0 with
    progress := 15
    message := "Using AI to detect facial landmarks and features..." }
  let s2 := { s1 with
    progress := 35
    message := "Extracting 3D facial geometry from your photo..." }
  let s3 := { s2 with
    progress := 60
    message := "Creating your personalized 3D face model..." }
  let s4 := { s3 with
    progress := 80
    message := "Mapping your facial features to the 3D model..." }
  let s5 := { s4 with
    progress := 95
    message := "Optimizing your 3D avatar for realistic rendering..." }
  [s0, s1, s2, s3, s4, s5, finalJobState s5 r]

/-- The client-visible failures of the status/avatar endpoints:
`HTTPException(404)` and `HTTPException(400)`. -/
inductive ApiError where
  | notFound
  | notReady
deriving DecidableEq

/-- `GET /api/status/{process_id}` (main.py lines 161-167): 404 when the
id is not in the store, otherwise the stored entry. -/
def get_processing_status {α : Type} (store : String → Option (JobState α))
    (process_id : String) : Except ApiError (JobState α) :=
  match store process_id with
  | none => .error .notFound
  | some s => .ok s

/-- `GET /api/avatar/{process_id}` (main.py lines 169-179): 404 when the
id is not in the store, 400 when the stored status is not "completed",
otherwise the stored avatar data. -/
def get_avatar_data {α : Type} (store : String → Option (JobState α))
    (process_id : String) : Except ApiError (Option α) :=
  match store process_id with
  | none => .error .notFound
  | some s =>
    if s.status ≠ "completed" then .error .notReady else .ok s.avatar_data

/-- A concrete instantiation of the external-library operations over plain
pixel grids, used to evaluate the pipeline on concrete inputs: the PIL
transforms are identities, PNG serialisation flattens the pixel grid into
a byte list, and the digest is a decimal byte sum. -/
def listPixOps : PILOps (List (List Pixel)) :=
  { mode := fun _ => "RGB"
    convertRGB := id
    resize512 := id
    sharpen := fun _ img => img
    contrast := fun _ img => img
    pngEncode := fun img => img.flatMap fun row => row.flatMap fun p => [p.1, p.2.1, p.2.2]
    md5hex := fun bytes => toString (bytes.foldl (fun a b => a + b) 0)
    toPixels := id }

/-- A concrete, non-uniform 2×2 test photo (four distinct pixel colours). -/
def sampleImage : List (List Pixel) :=
  [[(10, 20, 30), (200, 50, 60)], [(70, 80, 90), (1, 2, 3)]]

/-! ### Helper lemmas -/

/-- The terminal update of `process_photo_background` on an exception has
status "failed" whichever message branch is taken (main.py lines 135-144
and 154-159). -/
lemma final_err_status {α : Type} (prev : JobState α) (m : String) :
    (finalJobState prev (ProcResult.err m)).status = "failed" := by
  simp only [finalJobState]
  split <;> rfl

/-- The 20×20 vertex grid of `_generate_3d_mesh` has exactly 400 vertices. -/
lemma generateVertices_length (g : FacialGeometry) : (generateVertices g).length = 400 := by
  simp [generateVertices, Function.comp_def, List.sum_replicate]

/-- The sum of squared components is nonnegative. -/
lemma normSq_nonneg (a : Vec3) : 0 ≤ normSq a := by
  unfold normSq
  positivity

/-- Squaring the Euclidean magnitude recovers the sum of squares. -/
lemma sq_vnorm (a : Vec3) : vnorm a ^ 2 = normSq a :=
  Real.sq_sqrt (normSq_nonneg a)

/-- Every normal that leaves the final normalisation step of
`_calculate_surface_normals` has Euclidean magnitude exactly 1: either the
accumulator is divided by its own positive magnitude, or the unit fallback
`[0, 1, 0]` is used. -/
lemma normalizeAccum_norm_one (n : Vec3) : vnorm (normalizeAccum n) = 1 := by
  unfold normalizeAccum
  split
  case isTrue h =>
    have hpos : 0 < vnorm n := lt_trans (by norm_num) h
    have hsq : normSq n ≠ 0 := by
      intro h0
      rw [vnorm, h0, Real.sqrt_zero] at hpos
      exact lt_irrefl 0 hpos
    have hdiv : normSq (sdiv n (vnorm n)) = normSq n / vnorm n ^ 2 := by
      simp only [normSq, sdiv]
      ring
    rw [vnorm, hdiv, sq_vnorm, div_self hsq, Real.sqrt_one]
  case isFalse h =>
    show vnorm ⟨0, 1, 0⟩ = 1
    rw [vnorm]
    simp [normSq]

/-- Folding `List.set` updates over a face's indices never changes the
length of the accumulator list. -/
lemma setAccum_length (f : Vec3 → Vec3) :
    ∀ (face : List ℕ) (acc : List Vec3),
      (face.foldl (fun ns idx => ns.set idx (f (ns.getD idx vzero))) acc).length
        = acc.length := by
  intro face
  induction face with
  | nil => intro acc; rfl
  | cons a t ih =>
    intro acc
    rw [List.foldl_cons, ih, List.length_set]

/-- Accumulating one face's normal preserves the accumulator length. -/
lemma accumFaceNormal_length (vs : List Vec3) (acc : List Vec3) (face : List ℕ) :
    (accumFaceNormal vs acc face).length = acc.length := by
  unfold accumFaceNormal
  split
  · exact setAccum_length (fun v => vadd v (faceNormal vs face)) face acc
  · rfl

/-- Accumulating all faces preserves the accumulator length. -/
lemma foldl_accum_length (vs : List Vec3) :
    ∀ (fs : List (List ℕ)) (acc : List Vec3),
      (fs.foldl (accumFaceNormal vs) acc).length = acc.length := by
  intro fs
  induction fs with
  | nil => intro acc; rfl
  | cons f t ih =>
    intro acc
    rw [List.foldl_cons, ih, accumFaceNormal_length]

/-- `_calculate_surface_normals` returns one normal per vertex, for every
vertex list and face list. -/
lemma calculate_surface_normals_length (vs : List Vec3) (fs : List (List ℕ)) :
    (calculate_surface_normals vs fs).length = vs.length := by
  unfold calculate_surface_normals
  rw [List.length_map, foldl_accum_length, List.length_map]

/-- Every normal returned by `_calculate_surface_normals` has Euclidean
magnitude exactly 1 (in exact real arithmetic), for every vertex list and
face list. -/
lemma calculate_surface_normals_unit (vs : List Vec3) (fs : List (List ℕ)) :
    (calculate_surface_normals vs fs).map vnorm
      = List.replicate vs.length (1 : ℝ) := by
  have hlen : ((calculate_surface_normals vs fs).map vnorm).length = vs.length := by
    rw [List.length_map, calculate_surface_normals_length]
  rw [← hlen, List.eq_replicate_length]
  intro b hb
  obtain ⟨n, hn, rfl⟩ := List.mem_map.mp hb
  obtain ⟨m, hm, rfl⟩ := List.mem_map.mp (by
    unfold calculate_surface_normals at hn
    exact hn)
  exact normalizeAccum_norm_one m

/-- Bound for the radial coordinate formula of `_generate_3d_mesh`: with
all trigonometric factors in `[-1, 1]` and a scale factor in `[0, 1]`, the
product `(0.5 + 0.1·s1·s2)·a·b·k` stays in `[-1, 1]` (indeed in
`[-0.6, 0.6]`). -/
lemma radial_bound {s1 s2 a b k : ℝ}
    (h1 : -1 ≤ s1) (h1' : s1 ≤ 1) (h2 : -1 ≤ s2) (h2' : s2 ≤ 1)
    (ha : -1 ≤ a) (ha' : a ≤ 1) (hb : -1 ≤ b) (hb' : b ≤ 1)
    (hk : 0 ≤ k) (hk' : k ≤ 1) :
    -1 ≤ (0.5 + 0.1 * s1 * s2) * a * b * k
      ∧ (0.5 + 0.1 * s1 * s2) * a * b * k ≤ 1 := by
  have hr0 : (0:ℝ) ≤ 0.5 + 0.1 * s1 * s2 := by nlinarith
  have hr1 : 0.5 + 0.1 * s1 * s2 ≤ 0.6 := by nlinarith
  have hp0 : -1 ≤ a * b := by nlinarith
  have hp1 : a * b ≤ 1 := by nlinarith
  constructor
  · nlinarith [mul_nonneg (mul_nonneg hr0 hk) (by linarith : (0:ℝ) ≤ 1 + a * b),
      mul_nonneg (by linarith : (0:ℝ) ≤ 0.6 - (0.5 + 0.1 * s1 * s2)) hk]
  · nlinarith [mul_nonneg (mul_nonneg hr0 hk) (by linarith : (0:ℝ) ≤ 1 - a * b),
      mul_nonneg (by linarith : (0:ℝ) ≤ 0.6 - (0.5 + 0.1 * s1 * s2)) hk]

/-- The x coordinate of every generated mesh vertex lies in `[-1, 1]`
(with the hard-coded face width 2.5, the scale `2.5 · 0.4` is 1 and the
radial factor is at most 0.6). -/
lemma meshVertexAt_x_bound (i j : ℕ) :
    -1 ≤ (meshVertexAt hardcodedGeometry i j).x
      ∧ (meshVertexAt hardcodedGeometry i j).x ≤ 1 := by
  unfold meshVertexAt hardcodedGeometry
  simp only
  push_cast
  obtain ⟨hl, hr⟩ := radial_bound
    (Real.neg_one_le_sin (3 * ((i:ℝ) / 19 * 2 * Real.pi)))
    (Real.sin_le_one (3 * ((i:ℝ) / 19 * 2 * Real.pi)))
    (Real.neg_one_le_sin (2 * ((j:ℝ) / 19 * Real.pi)))
    (Real.sin_le_one (2 * ((j:ℝ) / 19 * Real.pi)))
    (Real.neg_one_le_sin ((j:ℝ) / 19 * Real.pi))
    (Real.sin_le_one ((j:ℝ) / 19 * Real.pi))
    (Real.neg_one_le_cos ((i:ℝ) / 19 * 2 * Real.pi))
    (Real.cos_le_one ((i:ℝ) / 19 * 2 * Real.pi))
    (by norm_num : (0:ℝ) ≤ 1) (le_refl 1)
  constructor <;> nlinarith [hl, hr]

/-- The y coordinate of every generated mesh vertex lies in `[-1, 1]`
(with the hard-coded face length 2.0, the scale `2.0 · 0.4` is 0.8). -/
lemma meshVertexAt_y_bound (i j : ℕ) :
    -1 ≤ (meshVertexAt hardcodedGeometry i j).y
      ∧ (meshVertexAt hardcodedGeometry i j).y ≤ 1 := by
  unfold meshVertexAt hardcodedGeometry
  simp only
  push_cast
  obtain ⟨hl, hr⟩ := radial_bound
    (Real.neg_one_le_sin (3 * ((i:ℝ) / 19 * 2 * Real.pi)))
    (Real.sin_le_one (3 * ((i:ℝ) / 19 * 2 * Real.pi)))
    (Real.neg_one_le_sin (2 * ((j:ℝ) / 19 * Real.pi)))
    (Real.sin_le_one (2 * ((j:ℝ) / 19 * Real.pi)))
    (Real.neg_one_le_cos ((j:ℝ) / 19 * Real.pi))
    (Real.cos_le_one ((j:ℝ) / 19 * Real.pi))
    (by norm_num : (-1:ℝ) ≤ 4/5)
    (by norm_num : (4/5:ℝ) ≤ 1)
    (by norm_num : (0:ℝ) ≤ 1) (le_refl 1)
  constructor <;> nlinarith [hl, hr]

/-! ### Claim theorems -/

/-- Claim C1, counterexample.  The claim says a job whose face detection
reports no face still reaches `completed` with a fallback avatar.  In the
code, when the processor raises an exception whose message contains
"No face detected", `process_photo_background` (main.py lines 135-142)
marks the job `failed` — the terminal trace entry has status "failed", not
"completed". -/
theorem C1_no_face_fallback_counterexample :
    ((processTrace (ProcResult.err "No face detected in the image") :
        List (JobState Unit)).getLast?.map JobState.status = some "failed")
    ∧ ((processTrace (ProcResult.err "No face detected in the image") :
        List (JobState Unit)).getLast?.map JobState.status ≠ some "completed") := by
  constructor
  · rfl
  · decide

/-- Claim C1, amended.  When face detection reports no face (the processor
raises an exception containing "No face detected"), the job terminates
with status `failed`, progress 0 and the no-face guidance message, and no
avatar record is stored; the orchestrator performs no fallback and never
sets `generation_params.method` to "fallback". -/
theorem C1_no_face_job_fails {α : Type} (m : String)
    (h : hasSubstr m.toList "No face detected".toList = true) :
    (processTrace (ProcResult.err m) : List (JobState α)).getLast?
      = some { status := "failed", progress := 0, message := noFaceMessage,
               avatar_data := none } := by
  simp [processTrace, finalJobState, initialJobState, String.toList] at h ⊢
  intro hf
  rw [h] at hf
  cases hf

/-- Claim C1, witness: the amended theorem applied to the concrete
exception message raised by the processor variants. -/
theorem C1_no_face_job_fails_witness :
    (processTrace (ProcResult.err "No face detected in the image") :
        List (JobState Unit)).getLast?
      = some { status := "failed", progress := 0, message := noFaceMessage,
               avatar_data := none } :=
  C1_no_face_job_fails "No face detected in the image" (by decide)

/-- Claim C2, counterexample.  The claim says every blend-shape delta
array has length `3 × len(mesh.vertices)`.  The mesh has 400 vertices, so
that would be 1200, but `_generate_animations` builds arrays of length 468
(one scalar per MediaPipe landmark, not one triple per mesh vertex). -/
theorem C2_blend_shape_length_counterexample :
    ¬ ((generate_animations hardcodedExpressions (fun _ _ => 1)).blend_shapes.neutral.length
        = 3 * (generate_3d_mesh hardcodedGeometry).vertices.length) := by
  have h1 : (generate_animations hardcodedExpressions
      (fun _ _ => 1)).blend_shapes.neutral.length = 468 := by
    simp only [generate_animations, blendShapeFor, List.length_map, List.length_range]
  have h2 : (generate_3d_mesh hardcodedGeometry).vertices.length = 400 :=
    generateVertices_length hardcodedGeometry
  rw [h1, h2]
  decide

/-- Claim C2, amended.  Every blend-shape delta array produced by
`_generate_animations` has length exactly 468, independent of the mesh,
whose vertex list has length 400 (so the lengths are unrelated to
`3 × len(mesh.vertices) = 1200`). -/
theorem C2_blend_shape_lengths (expressions : Expressions) (rand : ℕ → ℕ → ℚ) :
    (generate_animations expressions rand).blend_shapes.neutral.length = 468
    ∧ (generate_animations expressions rand).blend_shapes.happy.length = 468
    ∧ (generate_animations expressions rand).blend_shapes.sad.length = 468
    ∧ (generate_animations expressions rand).blend_shapes.angry.length = 468
    ∧ (generate_animations expressions rand).blend_shapes.surprised.length = 468
    ∧ (generate_3d_mesh hardcodedGeometry).vertices.length = 400 := by
  refine ⟨?_, ?_, ?_, ?_, ?_, generateVertices_length hardcodedGeometry⟩ <;>
    simp only [generate_animations, blendShapeFor, List.length_map, List.length_range]

/-- Claim C3, counterexample.  The claim says `generation_params` contains
at least the keys `quality`, `style` and `method`.  The avatar record
assembled by `generate_3d_avatar` (processing_simple.py lines 69-73) has
keys `quality`, `style`, `optimization` — looking up `method` finds
nothing, on a concrete run of the pipeline. -/
theorem C3_method_key_missing_counterexample :
    ((generate_3d_avatar listPixOps "avatar-1" "2024-01-01T00:00:00" (fun _ _ => 1)
        sampleImage).generation_params).lookup "method" = none := rfl

/-- Claim C3, amended.  Every avatar record's `generation_params` contains
exactly the keys `quality` (value "high"), `style` ("photorealistic") and
`optimization` ("real_time"); there is no `method` key, so no run — in
particular no successful landmark-based run — records
`method = "landmark-based"`. -/
theorem C3_generation_params_keys {Img : Type} (ops : PILOps Img)
    (avatar_id current_time : String) (rand : ℕ → ℕ → ℚ) (image : Img) :
    ((generate_3d_avatar ops avatar_id current_time rand image).generation_params).lookup
        "quality" = some "high"
    ∧ ((generate_3d_avatar ops avatar_id current_time rand image).generation_params).lookup
        "style" = some "photorealistic"
    ∧ ((generate_3d_avatar ops avatar_id current_time rand image).generation_params).lookup
        "optimization" = some "real_time"
    ∧ ((generate_3d_avatar ops avatar_id current_time rand image).generation_params).lookup
        "method" = none :=
  ⟨rfl, rfl, rfl, rfl⟩

set_option maxRecDepth 4096 in
/-- Claim C4.  For the mesh produced by `_generate_3d_mesh`: every index
in every face triple is below the vertex count; there is exactly one
normal per vertex; and every normal has Euclidean magnitude exactly 1 in
exact real arithmetic (hence within any ε of 1), stated as: mapping the
magnitude over the normals yields the constant-1 list. -/
theorem C4_mesh_invariants :
    ((generate_3d_mesh hardcodedGeometry).faces.all fun f =>
        f.all fun idx => idx < (generate_3d_mesh hardcodedGeometry).vertices.length) = true
    ∧ (generate_3d_mesh hardcodedGeometry).normals.length
        = (generate_3d_mesh hardcodedGeometry).vertices.length
    ∧ (generate_3d_mesh hardcodedGeometry).normals.map vnorm
        = List.replicate (generate_3d_mesh hardcodedGeometry).vertices.length (1 : ℝ) := by
  have hv : (generate_3d_mesh hardcodedGeometry).vertices
      = generateVertices hardcodedGeometry := rfl
  have hn : (generate_3d_mesh hardcodedGeometry).normals
      = calculate_surface_normals (generateVertices hardcodedGeometry) generateFaces := by
    simp only [generate_3d_mesh]
  have hf : (generate_3d_mesh hardcodedGeometry).faces = generateFaces := rfl
  refine ⟨?_, ?_, ?_⟩
  · rw [hf, hv, generateVertices_length]
    decide
  · rw [hn, hv, calculate_surface_normals_length]
  · rw [hn, hv, calculate_surface_normals_unit]

/-- Claim C5.  Over one job's lifetime (the update trace of
`process_photo_background` for any processor outcome): progress is
non-decreasing across all states whose status is `processing`; every
state before the last one has status `processing` (so the terminal state
is reached exactly once, as the final update, and nothing follows it);
the terminal state is `completed` or `failed`; and on the happy path the
recorded progress values are exactly 0, 15, 35, 60, 80, 95, 100 with
terminal status `completed`. -/
theorem C5_job_lifecycle {α : Type} (r : ProcResult α) :
    List.Chain' (· ≤ ·)
      (((processTrace r).filter fun s => s.status == "processing").map
        JobState.progress)
    ∧ ((processTrace r).dropLast.all fun s => s.status == "processing") = true
    ∧ ((processTrace r).getLast?.map JobState.status = some "completed"
        ∨ (processTrace r).getLast?.map JobState.status = some "failed")
    ∧ (∀ a : α,
        (processTrace (ProcResult.ok a)).map JobState.progress
            = [0, 15, 35, 60, 80, 95, 100]
        ∧ (processTrace (ProcResult.ok a)).getLast?.map JobState.status
            = some "completed") := by
  refine ⟨?_, ?_, ?_, fun a => ⟨rfl, rfl⟩⟩
  · cases r with
    | ok a => simp [processTrace, initialJobState, finalJobState]
    | err m => simp [processTrace, initialJobState, List.filter_cons, final_err_status]
  · cases r <;> rfl
  · cases r with
    | ok a => exact Or.inl rfl
    | err m =>
      refine Or.inr ?_
      simp [processTrace, final_err_status]

/-- Claim C6.  Both components of every per-vertex UV pair of the
generated mesh lie in `[0, 1]`: clamping every UV component to `[0, 1]`
leaves the UV list unchanged. -/
theorem C6_uv_in_unit_interval :
    ((generate_3d_mesh hardcodedGeometry).uvs.map fun p =>
        (max 0 (min 1 p.1), max 0 (min 1 p.2)))
      = (generate_3d_mesh hardcodedGeometry).uvs := by
  have huvs : (generate_3d_mesh hardcodedGeometry).uvs
      = generate_uv_coordinates (generateVertices hardcodedGeometry) := rfl
  rw [huvs, generate_uv_coordinates, List.map_map]
  apply List.map_congr_left
  intro v hv
  rw [generateVertices] at hv
  obtain ⟨i, hi, hv⟩ := List.mem_flatMap.mp hv
  obtain ⟨j, hj, rfl⟩ := List.mem_map.mp hv
  obtain ⟨hx0, hx1⟩ := meshVertexAt_x_bound i j
  obtain ⟨hy0, hy1⟩ := meshVertexAt_y_bound i j
  have hu0 : (0:ℝ) ≤ ((meshVertexAt hardcodedGeometry i j).x + 1) * 0.5 := by linarith
  have hu1 : ((meshVertexAt hardcodedGeometry i j).x + 1) * 0.5 ≤ 1 := by linarith
  have hw0 : (0:ℝ) ≤ ((meshVertexAt hardcodedGeometry i j).y + 1) * 0.5 := by linarith
  have hw1 : ((meshVertexAt hardcodedGeometry i j).y + 1) * 0.5 ≤ 1 := by linarith
  simp only [Function.comp]
  rw [min_eq_right hu1, max_eq_right hu0, min_eq_right hw1, max_eq_right hw0]

/-- Claim C7.  For the status and avatar endpoints of main.py: a status
query fails with 404 exactly for ids missing from the store; an avatar
query fails with 404 exactly for missing ids, fails with 400 exactly when
the job exists with a status other than "completed", and returns the
stored avatar record exactly when the job exists with status
"completed". -/
theorem C7_endpoint_contract {α : Type} (store : String → Option (JobState α))
    (process_id : String) :
    (get_processing_status store process_id = Except.error ApiError.notFound
      ↔ store process_id = none)
    ∧ (get_avatar_data store process_id = Except.error ApiError.notFound
      ↔ store process_id = none)
    ∧ (get_avatar_data store process_id = Except.error ApiError.notReady
      ↔ ∃ s, store process_id = some s ∧ s.status ≠ "completed")
    ∧ (∀ v : Option α, get_avatar_data store process_id = Except.ok v
      ↔ ∃ s, store process_id = some s ∧ s.status = "completed" ∧ s.avatar_data = v)
    ∧ (∀ s, get_processing_status store process_id = Except.ok s
      ↔ store process_id = some s) := by
  unfold get_processing_status get_avatar_data
  match h : store process_id with
  | none => simp
  | some s =>
    by_cases hc : s.status = "completed" <;> simp [hc]

/-- Claim C8, counterexample.  The claim says the normal channel is an
edge/gradient transform of the photo, different from the diffuse channel
for a non-uniform photo.  On a concrete non-uniform photo the live
`_generate_textures` assigns the identical base64 string to both
channels. -/
theorem C8_normal_equals_diffuse_counterexample :
    (generate_textures listPixOps sampleImage (generate_3d_mesh hardcodedGeometry)).normal
      = (generate_textures listPixOps sampleImage
          (generate_3d_mesh hardcodedGeometry)).diffuse := rfl

/-- Claim C8, amended.  In every produced texture set, the diffuse, normal
and specular channels are all the same string: the base64 encoding of the
PNG serialisation of the (preprocessed) source photo.  No edge/gradient
transform is applied on the live path. -/
theorem C8_texture_channels_identical {Img : Type} (ops : PILOps Img) (image : Img)
    (mesh_data : MeshData) :
    (generate_textures ops image mesh_data).normal
        = (generate_textures ops image mesh_data).diffuse
    ∧ (generate_textures ops image mesh_data).specular
        = (generate_textures ops image mesh_data).diffuse
    ∧ (generate_textures ops image mesh_data).diffuse
        = base64Encode (ops.pngEncode image) :=
  ⟨rfl, rfl, rfl⟩

/-- Claim C9.  The `source_image_hash` of an avatar record does not
depend on the run's nondeterministic externals (uuid, timestamp, random
draws): two runs on the same image yield the same hash, and the hash is
exactly the digest of the PNG bytes of the preprocessed image — a pure
function of the processed image bytes. -/
theorem C9_hash_deterministic {Img : Type} (ops : PILOps Img)
    (id1 t1 id2 t2 : String) (r1 r2 : ℕ → ℕ → ℚ) (image : Img) :
    (generate_3d_avatar ops id1 t1 r1 image).source_image_hash
        = (generate_3d_avatar ops id2 t2 r2 image).source_image_hash
    ∧ (generate_3d_avatar ops id1 t1 r1 image).source_image_hash
        = ops.md5hex (ops.pngEncode (preprocess_image ops image)) :=
  ⟨rfl, rfl⟩

/-- Claim C10.  The live pipeline's mesh geometry does not depend on the
input image: for any two input images (and any nondeterministic
externals), the produced avatar records have identical vertex lists and
identical face lists, because `_extract_facial_features` hard-codes the
`facial_geometry` measurements that `_generate_3d_mesh` consumes. -/
theorem C10_mesh_independent_of_image {Img : Type} (ops : PILOps Img)
    (id1 t1 id2 t2 : String) (r1 r2 : ℕ → ℕ → ℚ) (img1 img2 : Img) :
    (generate_3d_avatar ops id1 t1 r1 img1).vertices
        = (generate_3d_avatar ops id2 t2 r2 img2).vertices
    ∧ (generate_3d_avatar ops id1 t1 r1 img1).faces
        = (generate_3d_avatar ops id2 t2 r2 img2).faces :=
  ⟨rfl, rfl⟩

end MirrorWorld
